import Mathlib

/-!
Shallow embedding of the meeting-booking agent
(`google_calendar_integration_openai.py` and `meeting_booking_agent.py`).

Modelling conventions:
* Python dictionaries used as step parameters become association lists
  `List (String × PyVal)`; a `params["k"]` subscript becomes `pget`, which
  raises `KeyError` (modelled as `Except.error (PyError.keyError k)`) when
  the key is absent, exactly as Python does.
* Result dictionaries returned by the executor become the `StepResult`
  structure; a key that a given action does not set is modelled by the
  field's `none` / default value, so Python's `d.get(k, default)` becomes
  `field.getD default`.
* Timestamps are minutes (a `Nat`); a calendar day is 1440 minutes, so
  `datetime.combine(base_date, time(h, 0))` becomes `base_date * 1440 + h * 60`.
  ISO-8601 (de)serialisation is delegated to the environment functions
  `fromisoformat` / `date_fromisoformat`, whose `ValueError` is an
  `Except.error` in `Except String`.
* The external Google services (People API, Calendar API) and the OpenAI
  client are collaborators; they appear as the fields of `GoogleEnv`
  (respectively as the `llm` argument of the agent).  A collaborator call
  that raises is a field returning `Except.error msg`.
* Python `try/except Exception` blocks become a `match` on an
  `Except String StepResult` body (`*_try` definitions).
-/

/-- A Python value as it occurs in the step-parameter dictionaries of this
program: a string, a boolean, or a list of strings. -/
inductive PyVal where
  | str (s : String)
  | bool (b : Bool)
  | strList (l : List String)
deriving DecidableEq

/-- String content of a parameter value; the program only reads parameters
at their stored dynamic type, so the other cases never occur in practice. -/
def PyVal.asStr : PyVal → String
  | .str s => s
  | .bool _ => ""
  | .strList _ => ""

/-- Python truthiness of a parameter value (used for `ask_user`). -/
def PyVal.asBool : PyVal → Bool
  | .str s => !(s == "")
  | .bool b => b
  | .strList l => !l.isEmpty

/-- List content of a parameter value (used for `attendees`). -/
def PyVal.asStrList : PyVal → List String
  | .strList l => l
  | _ => []

/-- A Python exception escaping the modelled code. -/
inductive PyError where
  | keyError (key : String)
  | attributeError (msg : String)
  | typeError (msg : String)
  | exn (msg : String)
deriving DecidableEq

/-- Parameter dictionaries of the program. -/
abbrev Params := List (String × PyVal)

/-- Python `params[k]`: the value when the key is present, `KeyError k`
otherwise. -/
def pget (params : Params) (k : String) : Except PyError PyVal :=
  match params.lookup k with
  | some v => .ok v
  | none => .error (.keyError k)

/-- Does the character list start with `sub`? -/
def charsStartWith : List Char → List Char → Bool
  | _, [] => true
  | [], _ :: _ => false
  | a :: s, b :: t => a == b && charsStartWith s t

/-- Does `sub` occur contiguously inside `s`? -/
def charsContain (sub : List Char) : List Char → Bool
  | [] => charsStartWith [] sub
  | a :: rest => charsStartWith (a :: rest) sub || charsContain sub rest

/-- Python `sub in s` on strings. -/
def strContains (s sub : String) : Bool :=
  charsContain sub.toList s.toList

/-- A person record returned by the Google People API, reduced to the
fields the program reads (`names[i]['displayName']` is flattened to the
entries of `names`, `emailAddresses[i]['value']` to `emailAddresses`). -/
structure Person where
  resourceName : String := ""
  names : List String := []
  emailAddresses : List String := []
  phoneNumbers : List String := []
deriving DecidableEq

/-- Result of `events().insert(...)`, reduced to the fields the program
reads. -/
structure EventCreated where
  id : Option String := none
  htmlLink : Option String := none
deriving DecidableEq

/-- The result dictionary of one executed step.  Fields a given action does
not set keep their default, which models the key being absent from the
Python dictionary. -/
structure StepResult where
  success : Bool := false
  error : Option String := none
  contact_id : Option String := none
  name : Option String := none
  email : Option String := none
  phone : Option String := none
  date : Option Nat := none
  slots : Option (List (Nat × Nat)) := none
  is_available : Option Bool := none
  conflicting_events : Option Nat := none
  meeting_id : Option String := none
  title : Option String := none
  start_time : Option String := none
  end_time : Option String := none
  attendees : Option (List String) := none
  link : Option String := none
  duration : Option Nat := none
  preferred_times : Option (List String) := none
  buffer : Option Nat := none
deriving DecidableEq

/-- The external collaborators of `GoogleCalendarAPIExecutor`: each field is
one remote call the executor makes; an `Except.error` models the call
raising an exception. -/
structure GoogleEnv where
  /-- `datetime.date.today()` as used inside the executor module (which does
  `import datetime`), as a day index. -/
  today : Nat := 0
  /-- `datetime.date.fromisoformat`, `ValueError` as `Except.error`. -/
  date_fromisoformat : String → Except String Nat := fun _ => .error "ValueError"
  /-- `datetime.datetime.fromisoformat` (after the `Z` replacement), in
  minutes; `ValueError` as `Except.error`. -/
  fromisoformat : String → Except String Nat := fun _ => .error "ValueError"
  /-- `people().connections().list(...).execute()`: the `connections` list. -/
  connections_list : Except String (List Person) := .error "unreachable"
  /-- `people().get(resourceName='people/{contact_id}').execute()`. -/
  people_get : String → Except String Person := fun _ => .error "unreachable"
  /-- `events().list(timeMin, timeMax, ...).execute()`: the `items` list,
  reduced to event identifiers (only its length is read). -/
  events_list : Nat → Nat → Except String (List String) := fun _ _ => .error "unreachable"
  /-- `freebusy().query(body).execute()`: the `calendars` mapping, each
  calendar's `busy` list kept as ISO string pairs. -/
  freebusy_query : Nat → Nat → String → Except String (List (String × List (String × String))) :=
    fun _ _ _ => .error "unreachable"
  /-- `events().insert(calendarId='primary', body=event).execute()`, fed the
  title, resolved attendee e-mails, start, end and description. -/
  events_insert : String → List String → String → String → String → Except String EventCreated :=
    fun _ _ _ _ _ => .error "unreachable"

/-- `GoogleCalendarAPIExecutor._get_contact_details`: fetches one person and
flattens names/e-mails/phones, with its own `try/except`. -/
def get_contact_details (env : GoogleEnv) (contact_id : String) : StepResult :=
  match env.people_get contact_id with
  | .ok person =>
      { success := true
        contact_id := some contact_id
        name := some (person.names.headD "")
        email := some (person.emailAddresses.headD "")
        phone := some (person.phoneNumbers.headD "") }
  | .error e => { success := false, error := some ("Error getting contact details: " ++ e) }

/-- One matching contact as accumulated by `_find_contact`: the inner loop
over `person['names']` appends the first display name containing the query
and then breaks. -/
structure MatchingContact where
  contact_id : String
  name : String
  email : String
deriving DecidableEq

/-- The inner loop of `_find_contact` for one person: first display name
whose lower-case form contains the query. -/
def person_first_match (query : String) (person : Person) : Option MatchingContact :=
  person.names.findSome? fun display_name =>
    if strContains display_name.toLower query then
      some { contact_id := (person.resourceName.splitOn "/").getLastD ""
             name := display_name
             email := person.emailAddresses.headD "" }
    else none

/-- Body of `GoogleCalendarAPIExecutor._find_contact` inside its `try`. -/
def find_contact_try (env : GoogleEnv) (name : String) : Except String StepResult := do
  let query := name.toLower
  let connections ← env.connections_list
  let matching_contacts := connections.filterMap (person_first_match query)
  match matching_contacts with
  | contact :: _ =>
      return { success := true
               contact_id := some contact.contact_id
               name := some contact.name
               email := some contact.email }
  | [] =>
      return { success := false
               error := some ("No contact found with name \x27" ++ name ++ "\x27") }

/-- `GoogleCalendarAPIExecutor._find_contact` with its `except Exception`
clause. -/
def find_contact (env : GoogleEnv) (name : String) : StepResult :=
  match find_contact_try env name with
  | .ok r => r
  | .error e => { success := false, error := some ("Error finding contact: " ++ e) }

/-- Body of `_check_availability` inside its `try`. -/
def check_availability_try (env : GoogleEnv) (user_id start_time end_time : String) :
    Except String StepResult := do
  let start_dt ← env.fromisoformat start_time
  let end_dt ← env.fromisoformat end_time
  let events ← env.events_list start_dt end_dt
  let is_available := events.length == 0
  return { success := true
           is_available := some is_available
           conflicting_events := some events.length }

/-- `GoogleCalendarAPIExecutor._check_availability`. -/
def check_availability (env : GoogleEnv) (user_id start_time end_time : String) : StepResult :=
  match check_availability_try env user_id start_time end_time with
  | .ok r => r
  | .error e => { success := false, error := some ("Error checking availability: " ++ e) }

/-- One free/busy overlap test of the scheduler loop: the candidate
`[current_time, slot_end)` is free iff for every busy period
`(busy_start, busy_end)` we have `slot_end <= busy_start or
current_time >= busy_end` (source line `if not (slot_end <= busy_start or
current_time >= busy_end)`). -/
def is_free (busy_periods : List (Nat × Nat)) (current_time slot_end : Nat) : Bool :=
  busy_periods.all fun b => decide (slot_end ≤ b.1) || decide (b.2 ≤ current_time)

/-- The `while current_time + duration <= time_max` loop of
`_get_free_slots`: advance the cursor in 30-minute strides, emitting each
free candidate window.  The extra `fuel` argument is a structural bound on
the number of iterations; since every iteration advances the cursor by 30,
any `fuel` with `time_max ≤ current_time + 30 * fuel` makes the recursion
run to the loop's own exit condition. -/
def find_free_slots (busy_periods : List (Nat × Nat)) (duration time_max : Nat) :
    Nat → Nat → List (Nat × Nat)
  | current_time, fuel + 1 =>
    if current_time + duration ≤ time_max then
      (if is_free busy_periods current_time (current_time + duration) then
        [(current_time, current_time + duration)]
      else []) ++ find_free_slots busy_periods duration time_max (current_time + 30) fuel
    else []
  | _, 0 => []

/-- Body of `_get_free_slots` inside its `try`.  The work window is
9:00–17:00 of `base_date`; the busy periods of both calendars are parsed
and fed to the scheduler loop. -/
def get_free_slots_try (env : GoogleEnv) (user_id other_user_id : String)
    (date : Option String) : Except String StepResult := do
  let base_date ←
    match date with
    | some d => env.date_fromisoformat d
    | none => pure (env.today + 1)
  let start_hour := 9
  let end_hour := 17
  let duration := 30
  let contact_details := get_contact_details env other_user_id
  if !contact_details.success then
    return { success := false, error := some "Could not find contact email" }
  let contact_email := contact_details.email.getD ""
  if contact_email == "" then
    return { success := false, error := some "Contact does not have an email address" }
  let time_min := base_date * 1440 + start_hour * 60
  let time_max := base_date * 1440 + end_hour * 60
  let calendars ← env.freebusy_query time_min time_max contact_email
  let primary_busy := (calendars.lookup "primary").getD []
  let other_busy := (calendars.lookup contact_email).getD []
  let all_busy := primary_busy ++ other_busy
  let busy_periods ← all_busy.mapM fun period => do
    let s ← env.fromisoformat period.1
    let e ← env.fromisoformat period.2
    pure (s, e)
  let free_slots := find_free_slots busy_periods duration time_max time_min
    ((time_max - time_min) / 30 + 1)
  return { success := true, date := some base_date, slots := some free_slots }

/-- `GoogleCalendarAPIExecutor._get_free_slots`. -/
def get_free_slots (env : GoogleEnv) (user_id other_user_id : String)
    (date : Option String) : StepResult :=
  match get_free_slots_try env user_id other_user_id date with
  | .ok r => r
  | .error e => { success := false, error := some ("Error getting free slots: " ++ e) }

/-- Body of `_book_meeting` inside its `try`: resolve attendee ids to
e-mails (entries without `@` go through the directory; unresolvable ones
are dropped), then insert the event. -/
def book_meeting_try (env : GoogleEnv) (title : String) (attendees : List String)
    (start_time end_time description : String) : Except String StepResult := do
  let attendee_emails := attendees.foldl
    (fun acc attendee_id =>
      if strContains attendee_id "@" then acc ++ [attendee_id]
      else
        let contact := get_contact_details env attendee_id
        if contact.success && !(contact.email.getD "" == "") then
          acc ++ [contact.email.getD ""]
        else acc)
    []
  let event ← env.events_insert title attendee_emails start_time end_time description
  return { success := true
           meeting_id := event.id
           title := some title
           start_time := some start_time
           end_time := some end_time
           attendees := some attendee_emails
           link := event.htmlLink }

/-- `GoogleCalendarAPIExecutor._book_meeting`. -/
def book_meeting (env : GoogleEnv) (title : String) (attendees : List String)
    (start_time end_time description : String) : StepResult :=
  match book_meeting_try env title attendees start_time end_time description with
  | .ok r => r
  | .error e => { success := false, error := some ("Error booking meeting: " ++ e) }

/-- `_ask_user_for_preferences` (the console print is not modelled). -/
def ask_user_for_preferences : StepResult :=
  { success := true
    duration := some 45
    preferred_times := some ["afternoon"]
    buffer := some 10 }

/-- `_get_meeting_preferences`. -/
def get_meeting_preferences (user_id : String) (ask_user : Bool) : StepResult :=
  if ask_user then ask_user_for_preferences
  else
    { success := true
      duration := some 30
      preferred_times := some ["morning", "afternoon"]
      buffer := some 15 }

/-- `GoogleCalendarAPIExecutor._execute_contacts_api`: the `params[...]`
subscripts happen before the dispatched method's `try`, so a missing key
raises. -/
def execute_contacts_api (env : GoogleEnv) (action : String) (params : Params) :
    Except PyError StepResult :=
  if action == "find_contact" then do
    let name ← pget params "name"
    return find_contact env name.asStr
  else if action == "get_contact_details" then do
    let contact_id ← pget params "contact_id"
    return get_contact_details env contact_id.asStr
  else
    return { success := false, error := some ("Unknown contacts action: " ++ action) }

/-- `GoogleCalendarAPIExecutor._execute_calendar_api`. -/
def execute_calendar_api (env : GoogleEnv) (action : String) (params : Params) :
    Except PyError StepResult :=
  if action == "check_availability" then do
    let user_id ← pget params "user_id"
    let start_time ← pget params "start_time"
    let end_time ← pget params "end_time"
    return check_availability env user_id.asStr start_time.asStr end_time.asStr
  else if action == "get_free_slots" then do
    let user_id ← pget params "user_id"
    let other_user_id ← pget params "other_user_id"
    let date := (params.lookup "date").map PyVal.asStr
    return get_free_slots env user_id.asStr other_user_id.asStr date
  else if action == "book_meeting" then do
    let title ← pget params "title"
    let attendees ← pget params "attendees"
    let start_time ← pget params "start_time"
    let end_time ← pget params "end_time"
    let description := ((params.lookup "description").map PyVal.asStr).getD ""
    return book_meeting env title.asStr attendees.asStrList start_time.asStr end_time.asStr
      description
  else
    return { success := false, error := some ("Unknown calendar action: " ++ action) }

/-- `GoogleCalendarAPIExecutor._execute_preferences_api`. -/
def execute_preferences_api (action : String) (params : Params) :
    Except PyError StepResult :=
  if action == "get_meeting_preferences" then do
    let user_id ← pget params "user_id"
    let ask_user := ((params.lookup "ask_user").map PyVal.asBool).getD false
    return get_meeting_preferences user_id.asStr ask_user
  else
    return { success := false, error := some ("Unknown preferences action: " ++ action) }

/-- `GoogleCalendarAPIExecutor.execute`: dispatch by `api_name`. -/
def execute (env : GoogleEnv) (api_name action : String) (params : Params) :
    Except PyError StepResult :=
  if api_name == "contacts" then execute_contacts_api env action params
  else if api_name == "calendar" then execute_calendar_api env action params
  else if api_name == "preferences" then execute_preferences_api action params
  else return { success := false, error := some ("Unknown API: " ++ api_name) }

/-!
The agent module `meeting_booking_agent.py` (class `MeetingBookingMCPAgent`).
-/

/-- The intent dictionary.  `_parse_intent_with_llm` always returns
`{"action": "book_meeting", "contact_name": "Chinmay Sir",
"ask_preferences": False}`; `none` models an absent key (the builder tests
key membership with `in`). -/
structure Intent where
  action : String
  contact_name : Option String := none
  ask_preferences : Option Bool := none
deriving DecidableEq

/-- One step of an execution plan. -/
structure PlanStep where
  api : String
  action : String
  params : Params
deriving DecidableEq

/-- The pending-action state the runner records on a suspending failure:
`self.pending_action` (always the string `"get_free_slots"`) and
`self.pending_action_contact_id`. -/
structure Pending where
  action : String
  contact_id : String
deriving DecidableEq

/-- The `{message, status}` dictionary returned to the user. -/
structure AgentResponse where
  message : String
  status : String
deriving DecidableEq

/-- `MeetingBookingMCPAgent._parse_intent_with_llm`: the OpenAI chat call
(whose network failure would propagate) followed by the hard-coded intent;
the response content is discarded by the source. -/
def parse_intent_with_llm (llm : String → Except String String) (prompt : String) :
    Except PyError Intent :=
  match llm prompt with
  | .ok _message_content =>
      .ok { action := "book_meeting"
            contact_name := some "Chinmay Sir"
            ask_preferences := some false }
  | .error e => .error (.exn e)

/-- The expression `datetime.date.today()` in `_create_execution_plan`.
The module does `from datetime import datetime`, so `datetime` is the class
`datetime.datetime`, whose `date` attribute is the *instance method*
`datetime.date`, not the `datetime.date` class; the attribute access
`.today` on that method descriptor raises `AttributeError`. -/
def datetime_date_today : Except PyError String :=
  .error (.attributeError
    "\x27method_descriptor\x27 object has no attribute \x27today\x27")

/-- `MeetingBookingMCPAgent._create_execution_plan`: the optional
`contacts.find_contact` and `preferences.get_meeting_preferences` steps,
then the final `calendar.get_free_slots` step whose `date` parameter
evaluates `datetime.date.today().isoformat()`. -/
def create_execution_plan (intent : Intent) (user_id : String) :
    Except PyError (List PlanStep) := do
  let plan : List PlanStep :=
    (match intent.contact_name with
     | some contact_name =>
         [{ api := "contacts", action := "find_contact"
            params := [("name", .str contact_name)] }]
     | none => []) ++
    (match intent.ask_preferences with
     | some b =>
         if b then
           [{ api := "preferences", action := "get_meeting_preferences"
              params := [("user_id", .str user_id), ("ask_user", .bool true)] }]
         else []
     | none => [])
  let today ← datetime_date_today
  return plan ++
    [{ api := "calendar", action := "get_free_slots"
       params := [("user_id", .str user_id), ("other_user_id", .str "PLACEHOLDER"),
                  ("date", .str today)] }]

/-- Python dictionary assignment `results[k] = v` on an insertion-ordered
mapping: overwrite in place if the key exists, otherwise append. -/
def resultsInsert (results : List (String × StepResult)) (k : String) (v : StepResult) :
    List (String × StepResult) :=
  if results.any (fun p => p.1 == k) then
    results.map (fun p => if p.1 == k then (k, v) else p)
  else results ++ [(k, v)]

/-- The results mapping accumulated by a run. -/
abbrev Results := List (String × StepResult)

/-- The `for step in plan` loop of `MeetingBookingMCPAgent._execute_plan`:
execute each step in list order, record its result under
`f"{step['api']}_{step['action']}"`, and on a failing `get_free_slots` step
record the pending action (`self.pending_action = 'get_free_slots'`,
`self.pending_action_contact_id = step['params']['other_user_id']`, the
latter raising `KeyError` when the key is absent) and break.  The returned
`Option Pending` is the recorded pending action, `none` when the loop runs
to completion. -/
def execute_plan_loop (api_executor : String → String → Params → Except PyError StepResult) :
    List PlanStep → Results → Except PyError (Results × Option Pending)
  | [], results => .ok (results, none)
  | step :: rest, results => do
    let result ← api_executor step.api step.action step.params
    let results := resultsInsert results (step.api ++ "_" ++ step.action) result
    if step.action == "get_free_slots" && !result.success then do
      let other_user_id ← pget step.params "other_user_id"
      return (results, some { action := "get_free_slots", contact_id := other_user_id.asStr })
    else
      execute_plan_loop api_executor rest results

/-- `MeetingBookingMCPAgent._execute_plan(self, plan, prompt)`: `results`
starts empty; the `prompt` parameter is never used. -/
def execute_plan (api_executor : String → String → Params → Except PyError StepResult)
    (plan : List PlanStep) (prompt : String) : Except PyError (Results × Option Pending) :=
  execute_plan_loop api_executor plan []

/-- The call `self._execute_plan(plan)` in `process_user_prompt`:
`_execute_plan` is declared with a further required positional parameter
`prompt`, so Python raises `TypeError` at this call site before the method
body runs. -/
def execute_plan_called_without_prompt
    (api_executor : String → String → Params → Except PyError StepResult)
    (plan : List PlanStep) : Except PyError (Results × Option Pending) :=
  .error (.typeError
    "_execute_plan() missing 1 required positional argument: \x27prompt\x27")

/-- `MeetingBookingMCPAgent._generate_response`: map the accumulated
results to the user-facing `{message, status}`. -/
def generate_response (prompt : String) (results : Results) : AgentResponse :=
  if (match results.lookup "contacts_find_contact" with
      | some r => r.success
      | none => false) then
    if (match results.lookup "calendar_get_free_slots" with
        | some r => r.success
        | none => false) then
      let slots :=
        match results.lookup "calendar_get_free_slots" with
        | some r => r.slots.getD []
        | none => []
      if !slots.isEmpty then
        { message := "Meeting slots found and processed.", status := "success" }
      else
        { message := "There are no available time slots. Would you like to try a different day?"
          status := "success" }
    else
      { message := "Failed to find available slots. Please specify a date."
        status := "error" }
  else
    { message := "Failed to find contact.", status := "error" }

/-- `MeetingBookingMCPAgent.process_user_prompt`. -/
def process_user_prompt (llm : String → Except String String)
    (api_executor : String → String → Params → Except PyError StepResult)
    (prompt user_id : String) : Except PyError AgentResponse := do
  let intent ← parse_intent_with_llm llm prompt
  if intent.action == "book_meeting" then do
    let plan ← create_execution_plan intent user_id
    let rp ← execute_plan_called_without_prompt api_executor plan
    return generate_response prompt rp.1
  else
    return { message := "I\x27m not sure what you want to do. Can you clarify?"
             status := "error" }

/-!
Scheduler lemmas (claims C2, C8).
-/

/-- Unfolding of the free test of the scheduler loop. -/
theorem is_free_eq_true_iff (busy : List (Nat × Nat)) (current_time slot_end : Nat) :
    is_free busy current_time slot_end = true ↔
      ∀ b ∈ busy, slot_end ≤ b.1 ∨ b.2 ≤ current_time := by
  simp [is_free, List.all_eq_true]

/-- C2: every FreeSlot emitted by the interval scheduler inside
`get_free_slots` lies entirely within the work window — slot start at or
after the cursor's starting point `workStart` and slot end at most
`time_max` — has the configured duration, and overlaps no busy interval
under half-open semantics: for each busy interval `(bStart, bEnd)` either
`slotEnd ≤ bStart` or `slotStart ≥ bEnd`.  This holds for every busy set,
duration, window, and iteration bound. -/
theorem scheduler_slots_in_window_disjoint
    (busy : List (Nat × Nat)) (duration time_max fuel workStart : Nat)
    (s : Nat × Nat) (hs : s ∈ find_free_slots busy duration time_max workStart fuel) :
    workStart ≤ s.1 ∧ s.2 = s.1 + duration ∧ s.2 ≤ time_max ∧
      ∀ b ∈ busy, s.2 ≤ b.1 ∨ b.2 ≤ s.1 := by
  induction fuel generalizing workStart with
  | zero => simp [find_free_slots] at hs
  | succ n ih =>
    rw [find_free_slots] at hs
    by_cases hg : workStart + duration ≤ time_max
    · rw [if_pos hg] at hs
      rcases List.mem_append.mp hs with h1 | h2
      · by_cases hf : is_free busy workStart (workStart + duration) = true
        · rw [if_pos hf] at h1
          simp only [List.mem_singleton] at h1
          subst h1
          refine ⟨le_refl _, rfl, hg, ?_⟩
          intro b hb
          exact (is_free_eq_true_iff busy workStart (workStart + duration)).mp hf b hb
        · rw [if_neg hf] at h1
          simp at h1
      · obtain ⟨ha, hb, hc, hd⟩ := ih (workStart + 30) h2
        exact ⟨by omega, hb, hc, hd⟩
    · rw [if_neg hg] at hs
      simp at hs

/-- A demonstration busy set: one interval 9:00–9:30. -/
def demo_busy : List (Nat × Nat) := [(540, 570)]

/-- Witness for C2 at a concrete input: the window 9:00–10:30 with one busy
interval 9:00–9:30 contains the emitted slot 9:30–10:00, which satisfies
the window and disjointness bounds. -/
theorem scheduler_slots_in_window_disjoint_witness :
    (570, 600) ∈ find_free_slots demo_busy 30 630 540 4 ∧
      (540 ≤ 570 ∧ 600 = 570 + 30 ∧ 600 ≤ 630 ∧
        ∀ b ∈ demo_busy, 600 ≤ b.1 ∨ b.2 ≤ 570) :=
  ⟨by decide,
   scheduler_slots_in_window_disjoint demo_busy 30 630 4 540 (570, 600) (by decide)⟩

/-- Closed form of the scheduler loop on an empty busy set: one slot per
30-minute stride, provided the iteration bound covers the window. -/
theorem find_free_slots_no_busy (time_max : Nat) :
    ∀ (fuel workStart : Nat), time_max ≤ workStart + 30 * fuel →
      find_free_slots [] 30 time_max workStart fuel =
        (List.range ((time_max - workStart) / 30)).map
          (fun k => (workStart + 30 * k, workStart + 30 * k + 30)) := by
  intro fuel
  induction fuel with
  | zero =>
    intro workStart h
    have h0 : (time_max - workStart) / 30 = 0 := by
      have hz : time_max - workStart = 0 := by omega
      simp [hz]
    simp [find_free_slots, h0]
  | succ n ih =>
    intro workStart h
    rw [find_free_slots]
    by_cases hg : workStart + 30 ≤ time_max
    · rw [if_pos hg]
      have hfree : is_free [] workStart (workStart + 30) = true := by simp [is_free]
      rw [if_pos hfree]
      rw [ih (workStart + 30) (by omega)]
      have hdiv : (time_max - workStart) / 30 = (time_max - (workStart + 30)) / 30 + 1 := by
        have heq : time_max - workStart = (time_max - (workStart + 30)) + 30 := by omega
        rw [heq, Nat.add_div_right _ (by norm_num)]
      rw [hdiv, List.range_succ_eq_map]
      simp only [List.map_cons, List.map_map, List.singleton_append]
      congr 1
      simp only [List.map_inj_left, List.mem_range, Function.comp_apply, Prod.mk.injEq]
      intro a ha
      omega
    · rw [if_neg hg]
      have h0 : (time_max - workStart) / 30 = 0 := by
        apply Nat.div_eq_of_lt
        omega
      simp [h0]

/-- C8: on an empty busy set the scheduler emits one free slot per
30-minute granularity step — the closed form below — hence exactly
`(workEnd - workStart) / 30` slots in chronological order; in particular
the 9:00–17:00 window (minutes 540–1020) with 30-minute granularity and
duration yields exactly 16 slots, the last starting at 16:30 (minute
990). -/
theorem scheduler_empty_busy_slots :
    (∀ time_max fuel workStart : Nat, time_max ≤ workStart + 30 * fuel →
      find_free_slots [] 30 time_max workStart fuel =
        (List.range ((time_max - workStart) / 30)).map
          (fun k => (workStart + 30 * k, workStart + 30 * k + 30))) ∧
    (∀ time_max fuel workStart : Nat, time_max ≤ workStart + 30 * fuel →
      (find_free_slots [] 30 time_max workStart fuel).length =
        (time_max - workStart) / 30) ∧
    (find_free_slots [] 30 1020 540 17).length = 16 ∧
    (find_free_slots [] 30 1020 540 17).getLast? = some (990, 1020) := by
  refine ⟨fun tm f ws h => find_free_slots_no_busy tm f ws h, fun tm f ws h => ?_, ?_, ?_⟩
  · rw [find_free_slots_no_busy tm f ws h]
    simp
  · decide
  · decide

/-- Witness for C8 at the concrete 9:00–17:00 window, with the iteration
bound `(1020 - 540) / 30 + 1 = 17` that `get_free_slots` itself uses. -/
theorem scheduler_empty_busy_slots_witness :
    1020 ≤ 540 + 30 * 17 ∧
      (find_free_slots [] 30 1020 540 17).length = (1020 - 540) / 30 :=
  ⟨by decide, scheduler_empty_busy_slots.2.1 1020 17 540 (by decide)⟩

/-!
Plan-runner lemmas (claims C1, C4, C5).
-/

/-- Definitional unfolding of `Except` bind on a success. -/
theorem except_bind_ok {ε α β : Type} (a : α) (f : α → Except ε β) :
    (Except.ok a >>= f : Except ε β) = f a := rfl

/-- Definitional unfolding of `Except` bind on an exception. -/
theorem except_bind_error {ε α β : Type} (e : ε) (f : α → Except ε β) :
    (Except.error e >>= f : Except ε β) = .error e := rfl

/-- `pure` in the `Except` monad is `Except.ok`. -/
theorem except_pure_eq_ok {ε α : Type} (a : α) :
    (pure a : Except ε α) = Except.ok a := rfl

deriving instance DecidableEq for Except

/-- An executor oracle that never raises, as a total function lifted into
the executor interface the runner calls. -/
def okExec (f : String → String → Params → StepResult) :
    String → String → Params → Except PyError StepResult :=
  fun api action params => .ok (f api action params)

/-- The key under which a step's result is recorded:
`f"{step['api']}_{step['action']}"`. -/
def step_key (s : PlanStep) : String := s.api ++ "_" ++ s.action

/-- Does step `s` trigger the runner's suspension under oracle `f`:
is its action `get_free_slots` with a result whose `success` is false? -/
def step_suspends (f : String → String → Params → StepResult) (s : PlanStep) : Bool :=
  s.action == "get_free_slots" && !(f s.api s.action s.params).success

/-- The results mapping obtained by executing every step of `plan` in list
order on top of `results`. -/
def run_all (f : String → String → Params → StepResult) (results : Results)
    (plan : List PlanStep) : Results :=
  plan.foldl (fun rs s => resultsInsert rs (step_key s) (f s.api s.action s.params)) results

/-- When no step of the plan is a failing `get_free_slots` step, the loop
executes every step in order and records no pending action. -/
theorem execute_plan_loop_complete (f : String → String → Params → StepResult) :
    ∀ (plan : List PlanStep) (results : Results),
      (∀ t ∈ plan, step_suspends f t = false) →
      execute_plan_loop (okExec f) plan results = .ok (run_all f results plan, none) := by
  intro plan
  induction plan with
  | nil => intro results _; simp [execute_plan_loop, run_all]
  | cons step rest ih =>
    intro results hall
    have hs : (step.action == "get_free_slots" && !(f step.api step.action step.params).success)
        = false := hall step (by simp)
    simp only [execute_plan_loop, okExec, except_bind_ok, hs]
    simp only [Bool.false_eq_true, if_false]
    rw [ih (resultsInsert results (step.api ++ "_" ++ step.action)
      (f step.api step.action step.params)) (fun t ht => hall t (by simp [ht]))]
    rfl

/-- When the steps before `s` do not suspend and `s` is a failing
`get_free_slots` step carrying `other_user_id`, the loop stops at `s`: the
outcome is that of the plan truncated after `s`, no matter what `post`
contains, with the pending action recorded from `s`'s parameters. -/
theorem execute_plan_loop_suspends (f : String → String → Params → StepResult) :
    ∀ (pre : List PlanStep) (s : PlanStep) (post : List PlanStep) (results : Results)
      (v : PyVal),
      (∀ t ∈ pre, step_suspends f t = false) →
      step_suspends f s = true →
      s.params.lookup "other_user_id" = some v →
      execute_plan_loop (okExec f) (pre ++ s :: post) results =
        .ok (run_all f results (pre ++ [s]),
             some { action := "get_free_slots", contact_id := v.asStr }) := by
  intro pre
  induction pre with
  | nil =>
    intro s post results v _ hsusp hv
    have hs : (s.action == "get_free_slots" && !(f s.api s.action s.params).success)
        = true := hsusp
    simp only [List.nil_append, execute_plan_loop, okExec, except_bind_ok, hs, if_true]
    simp only [pget, hv, except_bind_ok, run_all, List.foldl_cons, List.foldl_nil, step_key]
    rfl
  | cons p pre ih =>
    intro s post results v hall hsusp hv
    have hp : (p.action == "get_free_slots" && !(f p.api p.action p.params).success)
        = false := hall p (by simp)
    simp only [List.cons_append, execute_plan_loop, okExec, except_bind_ok, hp]
    simp only [Bool.false_eq_true, if_false, List.append_eq]
    rw [ih s post (resultsInsert results (p.api ++ "_" ++ p.action)
      (f p.api p.action p.params)) v (fun t ht => hall t (by simp [ht])) hsusp hv]
    rfl

/-- C1: the Plan Runner executes steps strictly in list order (the fold in
`run_all` is the in-order execution); whenever a step whose action is
`get_free_slots` returns `success == false`, it records a PendingAction
carrying the action name `get_free_slots` and the `other_user_id` from that
step's parameters and executes no later step (the outcome does not depend
on `post`); a step whose action is not `get_free_slots` can never suspend,
so a failure of such a step (in particular `find_contact`) never stops the
run and every remaining step is still executed. -/
theorem plan_runner_suspension_semantics :
    (∀ (f : String → String → Params → StepResult) (pre : List PlanStep) (s : PlanStep)
        (post : List PlanStep) (v : PyVal) (prompt : String),
      (∀ t ∈ pre, step_suspends f t = false) →
      step_suspends f s = true →
      s.params.lookup "other_user_id" = some v →
      execute_plan (okExec f) (pre ++ s :: post) prompt =
        .ok (run_all f [] (pre ++ [s]),
             some { action := "get_free_slots", contact_id := v.asStr })) ∧
    (∀ (f : String → String → Params → StepResult) (t : PlanStep),
      t.action ≠ "get_free_slots" → step_suspends f t = false) ∧
    (∀ (f : String → String → Params → StepResult) (plan : List PlanStep) (prompt : String),
      (∀ t ∈ plan, step_suspends f t = false) →
      execute_plan (okExec f) plan prompt = .ok (run_all f [] plan, none)) := by
  refine ⟨?_, ?_, ?_⟩
  · intro f pre s post v prompt hpre hsusp hv
    exact execute_plan_loop_suspends f pre s post [] v hpre hsusp hv
  · intro f t ht
    simp [step_suspends, ht]
  · intro f plan prompt hall
    exact execute_plan_loop_complete f plan [] hall

/-- The `contacts.find_contact` step of the plan the builder constructs. -/
def find_contact_step : PlanStep :=
  { api := "contacts", action := "find_contact", params := [("name", .str "Chinmay Sir")] }

/-- The `preferences.get_meeting_preferences` step the builder constructs
when `ask_preferences` is true. -/
def prefs_step : PlanStep :=
  { api := "preferences", action := "get_meeting_preferences"
    params := [("user_id", .str "primary"), ("ask_user", .bool true)] }

/-- The final `calendar.get_free_slots` step of the built plan, with the
build-time placeholder `other_user_id` (the `date` placeholder as in the
sibling agent class of `google_calendar_integration_openai.py`; in
`meeting_booking_agent.py` the date expression raises instead, see
`datetime_date_today`). -/
def gfs_step : PlanStep :=
  { api := "calendar", action := "get_free_slots"
    params := [("user_id", .str "primary"), ("other_user_id", .str "PLACEHOLDER"),
               ("date", .str "PLACEHOLDER")] }

/-- A test oracle: the contact is found, the free-slot lookup fails. -/
def f0 : String → String → Params → StepResult :=
  fun api action params =>
    if action == "get_free_slots" then
      { success := false, error := some "Could not find contact email" }
    else if action == "find_contact" then
      { success := true, contact_id := some "c123", name := some "Chinmay Sir"
        email := some "chinmay@example.com" }
    else { success := true }

/-- The result `f0` gives the `find_contact` step. -/
def contact_found_result : StepResult :=
  { success := true, contact_id := some "c123", name := some "Chinmay Sir"
    email := some "chinmay@example.com" }

/-- The result `f0` gives the `get_free_slots` step. -/
def gfs_failed_result : StepResult :=
  { success := false, error := some "Could not find contact email" }

/-- Witness for C1: a three-step plan whose `get_free_slots` step fails
suspends after that step — the trailing `prefs_step` is not executed —
recording the pending action with the step's `other_user_id`. -/
theorem plan_runner_suspension_semantics_witness :
    step_suspends f0 gfs_step = true ∧
      execute_plan (okExec f0) [find_contact_step, gfs_step, prefs_step] "" =
        .ok (run_all f0 [] [find_contact_step, gfs_step],
             some { action := "get_free_slots", contact_id := "PLACEHOLDER" }) :=
  ⟨by decide,
   plan_runner_suspension_semantics.1 f0 [find_contact_step] gfs_step [prefs_step]
     (.str "PLACEHOLDER") "" (by decide) (by decide) (by decide)⟩

/-- Recording a result grows the mapping by at most one entry (an existing
key is overwritten in place). -/
theorem resultsInsert_length_le (results : Results) (k : String) (v : StepResult) :
    (resultsInsert results k v).length ≤ results.length + 1 := by
  unfold resultsInsert
  split
  · simp
  · simp

/-- Executing a plan on top of `results` adds at most one entry per step. -/
theorem run_all_length_le (f : String → String → Params → StepResult) :
    ∀ (plan : List PlanStep) (results : Results),
      (run_all f results plan).length ≤ results.length + plan.length := by
  intro plan
  induction plan with
  | nil => intro results; simp [run_all]
  | cons s rest ih =>
    intro results
    have h1 := ih (resultsInsert results (step_key s) (f s.api s.action s.params))
    have h2 := resultsInsert_length_le results (step_key s) (f s.api s.action s.params)
    have h3 : run_all f results (s :: rest) =
        run_all f (resultsInsert results (step_key s) (f s.api s.action s.params)) rest := rfl
    rw [h3]
    simp only [List.length_cons]
    omega

/-- Whatever the loop returns without raising, the mapping has gained at
most one entry per step of the plan. -/
theorem execute_plan_loop_length (f : String → String → Params → StepResult) :
    ∀ (plan : List PlanStep) (rs results : Results) (pending : Option Pending),
      execute_plan_loop (okExec f) plan rs = .ok (results, pending) →
      results.length ≤ rs.length + plan.length := by
  intro plan
  induction plan with
  | nil =>
    intro rs results pending h
    simp only [execute_plan_loop, Except.ok.injEq, Prod.mk.injEq] at h
    obtain ⟨h1, _⟩ := h
    subst h1
    simp
  | cons step rest ih =>
    intro rs results pending h
    simp only [execute_plan_loop, okExec, except_bind_ok] at h
    have h2 := resultsInsert_length_le rs (step.api ++ "_" ++ step.action)
      (f step.api step.action step.params)
    split at h
    · cases hl : step.params.lookup "other_user_id" with
      | none => simp [pget, hl] at h
      | some v =>
        simp only [pget, hl, except_bind_ok, except_pure_eq_ok, Except.ok.injEq,
          Prod.mk.injEq] at h
        obtain ⟨h3, _⟩ := h
        subst h3
        simp only [List.length_cons]
        omega
    · have h4 := ih (resultsInsert rs (step.api ++ "_" ++ step.action)
        (f step.api step.action step.params)) results pending h
      simp only [List.length_cons]
      omega

/-- C4 counterexample: with the plan the builder shape prescribes — the
`get_free_slots` step last — a failing `get_free_slots` step suspends the
run, yet its own result was recorded before the break, so the results
mapping has exactly as many entries as the plan has steps: suspension does
not imply `len(results) < len(plan)`. -/
theorem plan_runner_results_count_counterexample :
    execute_plan (okExec f0) [find_contact_step, gfs_step] "" =
      .ok ([("contacts_find_contact", contact_found_result),
            ("calendar_get_free_slots", gfs_failed_result)],
           some { action := "get_free_slots", contact_id := "PLACEHOLDER" }) ∧
    ([("contacts_find_contact", contact_found_result),
      ("calendar_get_free_slots", gfs_failed_result)] : Results).length =
      ([find_contact_step, gfs_step] : List PlanStep).length ∧
    ¬ ([("contacts_find_contact", contact_found_result),
        ("calendar_get_free_slots", gfs_failed_result)] : Results).length <
        ([find_contact_step, gfs_step] : List PlanStep).length := by
  refine ⟨by decide, by decide, by decide⟩

/-- C4 amended: the results mapping never has more entries than the plan
has steps; and when the run ends suspended at a failing `get_free_slots`
step that is *not* the last step of the plan, the count is strictly
smaller.  (As stated, strictness for every suspension is false: the failing
step's own result is recorded before the break, so a suspension at the
final step — the position the builder always gives it — reaches equality,
see the counterexample.) -/
theorem plan_runner_results_count_amended :
    (∀ (f : String → String → Params → StepResult) (plan : List PlanStep) (prompt : String)
        (results : Results) (pending : Option Pending),
      execute_plan (okExec f) plan prompt = .ok (results, pending) →
      results.length ≤ plan.length) ∧
    (∀ (f : String → String → Params → StepResult) (pre : List PlanStep) (s : PlanStep)
        (post : List PlanStep) (v : PyVal) (prompt : String),
      post ≠ [] →
      (∀ t ∈ pre, step_suspends f t = false) →
      step_suspends f s = true →
      s.params.lookup "other_user_id" = some v →
      execute_plan (okExec f) (pre ++ s :: post) prompt =
        .ok (run_all f [] (pre ++ [s]),
             some { action := "get_free_slots", contact_id := v.asStr }) ∧
      (run_all f [] (pre ++ [s])).length < (pre ++ s :: post).length) := by
  constructor
  · intro f plan prompt results pending h
    have := execute_plan_loop_length f plan [] results pending h
    simpa using this
  · intro f pre s post v prompt hpost hpre hsusp hv
    refine ⟨execute_plan_loop_suspends f pre s post [] v hpre hsusp hv, ?_⟩
    have h1 := run_all_length_le f (pre ++ [s]) []
    have h2 : (pre ++ [s]).length = pre.length + 1 := by simp
    rw [h2] at h1
    simp only [List.length_nil] at h1
    have h3 : (pre ++ s :: post).length = pre.length + 1 + post.length := by
      simp [List.length_append]
      omega
    have h4 : post.length ≠ 0 := by
      intro h0
      exact hpost (List.eq_nil_of_length_eq_zero h0)
    omega

/-- Witness for C4's amended statement: the suspending `get_free_slots`
step followed by one more step yields two recorded results against three
plan steps. -/
theorem plan_runner_results_count_amended_witness :
    ([prefs_step] : List PlanStep) ≠ [] ∧
      execute_plan (okExec f0) [find_contact_step, gfs_step, prefs_step] "" =
        .ok (run_all f0 [] [find_contact_step, gfs_step],
             some { action := "get_free_slots", contact_id := "PLACEHOLDER" }) ∧
      (run_all f0 [] [find_contact_step, gfs_step]).length <
        ([find_contact_step, gfs_step, prefs_step] : List PlanStep).length :=
  ⟨by decide,
   plan_runner_results_count_amended.2 f0 [find_contact_step] gfs_step [prefs_step]
     (.str "PLACEHOLDER") "" (by decide) (by decide) (by decide) (by decide)⟩

/-- A discriminating oracle for C5: the free-slot lookup fails exactly when
it is invoked with the build-time placeholder contact id, and the contact
lookup succeeds with the resolved id `c123`. -/
def f_detect : String → String → Params → StepResult :=
  fun api action params =>
    if action == "get_free_slots" then
      if params.lookup "other_user_id" == some (.str "PLACEHOLDER") then
        { success := false, error := some "Could not find contact email" }
      else { success := true, slots := some [] }
    else if action == "find_contact" then
      { success := true, contact_id := some "c123", name := some "Chinmay Sir"
        email := some "chinmay@example.com" }
    else { success := true }

/-- C5 (refuting the claimed binding): the runner passes each step's
parameters to the executor verbatim.  Under an oracle that fails the
free-slot lookup exactly when it receives the placeholder, the built plan
suspends — so the `get_free_slots` step *was* executed with
`other_user_id = "PLACEHOLDER"` even though the preceding `find_contact`
step had returned contact id `c123` — and the pending contact id recorded
from the step's parameters is the placeholder, not the resolved id. -/
theorem plan_runner_executes_placeholder :
    execute_plan (okExec f_detect) [find_contact_step, gfs_step] "" =
      .ok ([("contacts_find_contact", contact_found_result),
            ("calendar_get_free_slots", gfs_failed_result)],
           some { action := "get_free_slots", contact_id := "PLACEHOLDER" }) := by
  decide

/-!
Plan-builder and entry-point theorems (claims C9, C3).
-/

/-- C9 (code bug): the Plan Builder never returns a plan.  For every intent
and user id, `_create_execution_plan` raises `AttributeError` when it
evaluates `datetime.date.today()` for the final `calendar.get_free_slots`
step, because the module imports `datetime` as the class
`datetime.datetime` (`from datetime import datetime`), whose `date`
attribute is an instance method with no `today` attribute.  The three-rule
plan shape the claim describes is present in the code but unreachable. -/
theorem create_execution_plan_raises (intent : Intent) (user_id : String) :
    create_execution_plan intent user_id =
      .error (.attributeError
        "\x27method_descriptor\x27 object has no attribute \x27today\x27") := by
  simp [create_execution_plan, datetime_date_today, except_bind_error]

/-- Witness for C9 at the hard-coded intent and the `primary` user id. -/
theorem create_execution_plan_raises_witness :
    create_execution_plan
        { action := "book_meeting", contact_name := some "Chinmay Sir"
          ask_preferences := some false } "primary" =
      .error (.attributeError
        "\x27method_descriptor\x27 object has no attribute \x27today\x27") :=
  create_execution_plan_raises
    { action := "book_meeting", contact_name := some "Chinmay Sir"
      ask_preferences := some false } "primary"

/-- C3 (code bug): `process_user_prompt` never returns a `{message,
status}` record; for every prompt and user id it propagates an exception to
its caller.  The hard-coded intent is `book_meeting`, so the call always
reaches `_create_execution_plan`, which raises `AttributeError` (see
`datetime_date_today`); if the OpenAI call raises first, that exception
propagates instead; and even with both repaired, `self._execute_plan(plan)`
omits the required `prompt` argument and would raise `TypeError`. -/
theorem process_user_prompt_raises :
    (∀ (llm : String → Except String String)
        (api_executor : String → String → Params → Except PyError StepResult)
        (prompt user_id : String),
      ∃ e, process_user_prompt llm api_executor prompt user_id = .error e) ∧
    process_user_prompt (fun _ => .ok "llm response") (okExec f0)
        "Book a meeting with Chinmay Sir" "primary" =
      .error (.attributeError
        "\x27method_descriptor\x27 object has no attribute \x27today\x27") := by
  constructor
  · intro llm api_executor prompt user_id
    cases h : llm prompt with
    | error e =>
        refine ⟨.exn e, ?_⟩
        simp [process_user_prompt, parse_intent_with_llm, h, except_bind_error]
    | ok c =>
        refine ⟨.attributeError
          "\x27method_descriptor\x27 object has no attribute \x27today\x27", ?_⟩
        simp [process_user_prompt, parse_intent_with_llm, h, except_bind_ok,
          create_execution_plan, datetime_date_today, except_bind_error]
  · rfl

/-!
Response-synthesizer theorems (claim C7).
-/

/-- The test `k in results and results[k].get("success")` used by
`_generate_response`. -/
def result_success (results : Results) (k : String) : Bool :=
  match results.lookup k with
  | some r => r.success
  | none => false

/-- The `results["calendar_get_free_slots"].get("slots", [])` list read by
`_generate_response` (empty when the key is absent, as the source only
reads it under the key-present guard). -/
def results_slots (results : Results) : List (Nat × Nat) :=
  match results.lookup "calendar_get_free_slots" with
  | some r => r.slots.getD []
  | none => []

/-- C7: the Response Synthesizer is a pure function of the results mapping
(the prompt argument is ignored) producing exactly the four documented
outcomes: no successful `contacts_find_contact` result gives the
failed-contact error; a found contact without a successful
`calendar_get_free_slots` result gives the failed-slots error; a
successful slot lookup with an empty list gives the no-slots success
message; a non-empty list gives the found-slots success message. -/
theorem generate_response_cases (prompt : String) (results : Results) :
    generate_response prompt results = generate_response "" results ∧
    (result_success results "contacts_find_contact" = false →
      generate_response prompt results =
        { message := "Failed to find contact.", status := "error" }) ∧
    (result_success results "contacts_find_contact" = true →
      result_success results "calendar_get_free_slots" = false →
      generate_response prompt results =
        { message := "Failed to find available slots. Please specify a date."
          status := "error" }) ∧
    (result_success results "contacts_find_contact" = true →
      result_success results "calendar_get_free_slots" = true →
      results_slots results = [] →
      generate_response prompt results =
        { message := "There are no available time slots. Would you like to try a different day?"
          status := "success" }) ∧
    (result_success results "contacts_find_contact" = true →
      result_success results "calendar_get_free_slots" = true →
      results_slots results ≠ [] →
      generate_response prompt results =
        { message := "Meeting slots found and processed.", status := "success" }) := by
  refine ⟨rfl, ?_, ?_, ?_, ?_⟩
  · intro h1
    simp only [generate_response, result_success] at h1 ⊢
    rw [h1]
    simp
  · intro h1 h2
    simp only [generate_response, result_success] at h1 h2 ⊢
    rw [h1, h2]
    simp
  · intro h1 h2 h3
    simp only [generate_response, result_success, results_slots] at h1 h2 h3 ⊢
    rw [h1, h2, h3]
    simp
  · intro h1 h2 h3
    simp only [generate_response, result_success, results_slots] at h1 h2 h3 ⊢
    rw [h1, h2]
    cases hl : (match results.lookup "calendar_get_free_slots" with
        | some r => r.slots.getD []
        | none => ([] : List (Nat × Nat))) with
    | nil => exact absurd hl h3
    | cons a t => simp [hl]

/-- A results mapping with a found contact and a successful slot lookup
that returned no slots. -/
def empty_slots_results : Results :=
  [("contacts_find_contact", contact_found_result),
   ("calendar_get_free_slots", { success := true, slots := some [] })]

/-- Witness for C7: the empty-slots branch at a concrete results
mapping. -/
theorem generate_response_cases_witness :
    result_success empty_slots_results "contacts_find_contact" = true ∧
      result_success empty_slots_results "calendar_get_free_slots" = true ∧
      results_slots empty_slots_results = [] ∧
      generate_response "hi" empty_slots_results =
        { message := "There are no available time slots. Would you like to try a different day?"
          status := "success" } :=
  ⟨by decide, by decide, by decide,
   (generate_response_cases "hi" empty_slots_results).2.2.2.1 (by decide) (by decide)
     (by decide)⟩

/-!
Step-executor theorems (claims C6, C10).
-/

/-- C6: dispatch on an unknown api or action yields a structured
`success = false` result with the `Unknown ...` message and raises nothing;
and an exception raised by the underlying collaborator call of each
recognized action — the contacts listing, the person fetch, the events
listing, the free/busy query, the event insertion — is caught and
converted to a `success = false` result carrying the exception's message,
never propagated out of `execute`. -/
theorem executor_error_normalization :
    (∀ (env : GoogleEnv) (api_name action : String) (params : Params),
      api_name ≠ "contacts" → api_name ≠ "calendar" → api_name ≠ "preferences" →
      execute env api_name action params =
        .ok { success := false, error := some ("Unknown API: " ++ api_name) }) ∧
    (∀ (env : GoogleEnv) (action : String) (params : Params),
      action ≠ "find_contact" → action ≠ "get_contact_details" →
      execute env "contacts" action params =
        .ok { success := false, error := some ("Unknown contacts action: " ++ action) }) ∧
    (∀ (env : GoogleEnv) (action : String) (params : Params),
      action ≠ "check_availability" → action ≠ "get_free_slots" → action ≠ "book_meeting" →
      execute env "calendar" action params =
        .ok { success := false, error := some ("Unknown calendar action: " ++ action) }) ∧
    (∀ (env : GoogleEnv) (action : String) (params : Params),
      action ≠ "get_meeting_preferences" →
      execute env "preferences" action params =
        .ok { success := false, error := some ("Unknown preferences action: " ++ action) }) ∧
    (∀ (env : GoogleEnv) (name e : String),
      env.connections_list = .error e →
      execute env "contacts" "find_contact" [("name", .str name)] =
        .ok { success := false, error := some ("Error finding contact: " ++ e) }) ∧
    (∀ (env : GoogleEnv) (contact_id e : String),
      env.people_get contact_id = .error e →
      execute env "contacts" "get_contact_details" [("contact_id", .str contact_id)] =
        .ok { success := false, error := some ("Error getting contact details: " ++ e) }) ∧
    (∀ (env : GoogleEnv) (st en : String) (a b : Nat) (e : String),
      env.fromisoformat st = .ok a → env.fromisoformat en = .ok b →
      env.events_list a b = .error e →
      execute env "calendar" "check_availability"
          [("user_id", .str "primary"), ("start_time", .str st), ("end_time", .str en)] =
        .ok { success := false, error := some ("Error checking availability: " ++ e) }) ∧
    (∀ (env : GoogleEnv) (other_user_id e : String) (person : Person),
      env.people_get other_user_id = .ok person →
      person.emailAddresses.headD "" ≠ "" →
      env.freebusy_query ((env.today + 1) * 1440 + 540) ((env.today + 1) * 1440 + 1020)
          (person.emailAddresses.headD "") = .error e →
      execute env "calendar" "get_free_slots"
          [("user_id", .str "primary"), ("other_user_id", .str other_user_id)] =
        .ok { success := false, error := some ("Error getting free slots: " ++ e) }) ∧
    (∀ (env : GoogleEnv) (e : String),
      env.events_insert "Sync" ["a@b.example"] "s" "t" "" = .error e →
      execute env "calendar" "book_meeting"
          [("title", .str "Sync"), ("attendees", .strList ["a@b.example"]),
           ("start_time", .str "s"), ("end_time", .str "t")] =
        .ok { success := false, error := some ("Error booking meeting: " ++ e) }) := by
  refine ⟨?_, ?_, ?_, ?_, ?_, ?_, ?_, ?_, ?_⟩
  · intro env api_name action params h1 h2 h3
    simp [execute, h1, h2, h3, except_pure_eq_ok]
  · intro env action params h1 h2
    simp [execute, execute_contacts_api, h1, h2, except_pure_eq_ok]
  · intro env action params h1 h2 h3
    simp [execute, execute_calendar_api, h1, h2, h3, except_pure_eq_ok]
  · intro env action params h1
    simp [execute, execute_preferences_api, h1, except_pure_eq_ok]
  · intro env name e h
    simp [execute, execute_contacts_api, pget, find_contact, find_contact_try, h,
      PyVal.asStr, except_bind_error, except_bind_ok, except_pure_eq_ok]
  · intro env contact_id e h
    simp [execute, execute_contacts_api, pget, get_contact_details, h,
      PyVal.asStr, except_bind_ok, except_pure_eq_ok]
  · intro env st en a b e h1 h2 h3
    simp +decide [execute, execute_calendar_api, pget, List.lookup, check_availability,
      check_availability_try, h1, h2, h3, PyVal.asStr, except_bind_ok, except_bind_error,
      except_pure_eq_ok]
  · intro env other_user_id e person h1 h2 h3
    simp only [List.headD_eq_head?_getD] at h2 h3
    simp +decide [execute, execute_calendar_api, pget, List.lookup, get_free_slots,
      get_free_slots_try, get_contact_details, h1, h2, h3, PyVal.asStr, except_bind_ok,
      except_bind_error, except_pure_eq_ok]
  · intro env e h
    simp +decide [execute, execute_calendar_api, pget, List.lookup, book_meeting,
      book_meeting_try, h, PyVal.asStr, PyVal.asStrList, except_bind_ok, except_bind_error,
      except_pure_eq_ok, strContains, charsContain, charsStartWith]

/-- An environment whose every collaborator call raises `boom`. -/
def env_boom : GoogleEnv :=
  { today := 0
    date_fromisoformat := fun _ => .ok 0
    fromisoformat := fun _ => .ok 0
    connections_list := .error "boom"
    people_get := fun _ => .error "boom"
    events_list := fun _ _ => .error "boom"
    freebusy_query := fun _ _ _ => .error "boom"
    events_insert := fun _ _ _ _ _ => .error "boom" }

/-- The person record backing the resolved contact in the fixtures. -/
def person_chinmay : Person :=
  { resourceName := "people/c123"
    names := ["Chinmay Sir"]
    emailAddresses := ["chinmay@example.com"]
    phoneNumbers := [] }

/-- An environment that resolves every contact to `person_chinmay` but
whose free/busy query raises `boom`. -/
def env_person : GoogleEnv :=
  { today := 0
    date_fromisoformat := fun _ => .ok 0
    fromisoformat := fun _ => .ok 0
    connections_list := .ok [person_chinmay]
    people_get := fun _ => .ok person_chinmay
    events_list := fun _ _ => .error "boom"
    freebusy_query := fun _ _ _ => .error "boom"
    events_insert := fun _ _ _ _ _ => .error "boom" }

/-- Witness for C6 at concrete inputs: an unknown api, an unknown contacts
action, a raising contacts listing, and a raising free/busy query all come
back as structured `success = false` results. -/
theorem executor_error_normalization_witness :
    (("mail" : String) ≠ "contacts" ∧
      execute env_boom "mail" "send" [] =
        .ok { success := false, error := some "Unknown API: mail" }) ∧
    (("list_contacts" : String) ≠ "find_contact" ∧
      execute env_boom "contacts" "list_contacts" [] =
        .ok { success := false, error := some "Unknown contacts action: list_contacts" }) ∧
    (env_boom.connections_list = .error "boom" ∧
      execute env_boom "contacts" "find_contact" [("name", .str "John")] =
        .ok { success := false, error := some "Error finding contact: boom" }) ∧
    (env_person.people_get "c123" = .ok person_chinmay ∧
      execute env_person "calendar" "get_free_slots"
          [("user_id", .str "primary"), ("other_user_id", .str "c123")] =
        .ok { success := false, error := some "Error getting free slots: boom" }) :=
  ⟨⟨by decide,
    executor_error_normalization.1 env_boom "mail" "send" [] (by decide) (by decide)
      (by decide)⟩,
   ⟨by decide,
    executor_error_normalization.2.1 env_boom "list_contacts" [] (by decide) (by decide)⟩,
   ⟨rfl,
    executor_error_normalization.2.2.2.2.1 env_boom "John" "boom" rfl⟩,
   ⟨rfl,
    executor_error_normalization.2.2.2.2.2.2.2.1 env_person "c123" "boom" person_chinmay
      rfl (by decide) rfl⟩⟩

/-- C10: the `params[...]` subscripts of `_execute_contacts_api` and
`_execute_calendar_api` run before any `try` block, so a missing required
key makes `execute` raise `KeyError` to its caller instead of returning a
StepResult; with an empty parameter dictionary, `find_contact` raises
`KeyError` for `name` and `get_free_slots` raises `KeyError` for the first
subscripted key, `user_id`; with `user_id` present but `other_user_id`
absent, the raised key is `other_user_id`. -/
theorem executor_keyerror_on_missing_params :
    (∀ (env : GoogleEnv) (params : Params),
      params.lookup "name" = none →
      execute env "contacts" "find_contact" params = .error (.keyError "name")) ∧
    (∀ (env : GoogleEnv) (params : Params) (u : PyVal),
      params.lookup "user_id" = some u → params.lookup "other_user_id" = none →
      execute env "calendar" "get_free_slots" params = .error (.keyError "other_user_id")) ∧
    (∀ env : GoogleEnv,
      execute env "contacts" "find_contact" [] = .error (.keyError "name")) ∧
    (∀ env : GoogleEnv,
      execute env "calendar" "get_free_slots" [] = .error (.keyError "user_id")) := by
  refine ⟨?_, ?_, fun env => rfl, fun env => rfl⟩
  · intro env params h
    simp [execute, execute_contacts_api, pget, h, except_bind_error]
  · intro env params u h1 h2
    simp [execute, execute_calendar_api, pget, h1, h2, except_bind_ok, except_bind_error]

/-- Witness for C10: concrete parameter dictionaries missing the required
keys. -/
theorem executor_keyerror_on_missing_params_witness :
    (([("x", PyVal.str "y")] : Params).lookup "name" = none ∧
      execute env_boom "contacts" "find_contact" [("x", .str "y")] =
        .error (.keyError "name")) ∧
    (([("user_id", PyVal.str "primary")] : Params).lookup "user_id" =
        some (.str "primary") ∧
      execute env_boom "calendar" "get_free_slots" [("user_id", .str "primary")] =
        .error (.keyError "other_user_id")) :=
  ⟨⟨by decide,
    executor_keyerror_on_missing_params.1 env_boom [("x", .str "y")] (by decide)⟩,
   ⟨by decide,
    executor_keyerror_on_missing_params.2.1 env_boom [("user_id", .str "primary")]
      (.str "primary") (by decide) (by decide)⟩⟩
